import Mathlib

/-!
Verification of the incremental-synchronization core of Got Your Back (GYB),
a Gmail backup/restore tool.  The definitions below are a shallow embedding of
the Python sources under `src/gyb/`:

* `database.py` — ledger schema, version guard, self-repair lookups;
* `google_api.py` — resilient call executor (`callGAPI`) and paginator
  (`callGAPIpages`);
* `actions.py` — label resolution and the per-item batch outcome callbacks.

Machine behaviour that the claims depend on is modelled explicitly: Python
string comparison is code-point lexicographic, SQLite primary keys / unique
indexes raise `IntegrityError` on duplicate inserts, and a statement against a
missing table raises `OperationalError`.
-/

set_option autoImplicit false

namespace GYB

/-- Python `<` on strings as code-point lexicographic order on the character
lists, used by `check_db_settings` which compares version strings with `<`
and `>` in `database.py`. -/
def pyCharsLt : List Char → List Char → Bool
  | [], [] => false
  | [], _ :: _ => true
  | _ :: _, [] => false
  | a :: as, b :: bs =>
    if a.val < b.val then true
    else if b.val < a.val then false
    else pyCharsLt as bs

/-- Python string `<` lifted to Lean strings. -/
def pyStrLt (a b : String) : Bool := pyCharsLt a.data b.data

/-- Python `str.lower()` restricted to ASCII, as used on email addresses and
label names in the source. -/
def pyLower (s : String) : String := String.mk (s.data.map Char.toLower)

/-- Python `str.upper()` restricted to ASCII, as used on label names. -/
def pyUpper (s : String) : String := String.mk (s.data.map Char.toUpper)

/-- Value of `__db_schema_version__` in `database.py`. -/
def db_schema_version : String := "6"

/-- Value of `__db_schema_min_version__` in `database.py` (minimum for
restore). -/
def db_schema_min_version : String := "6"

/-- The actions treated as restores by `check_db_settings` and `main`. -/
def restoreActions : List String := ["restore", "restore-group", "restore-mbox"]

/-- Embedding of `check_db_settings` (`database.py`): returns the `sys.exit`
code when the guard aborts and `none` when the settings pass.  The version
test compares version strings with Python string `<` / `>`; the account test
compares lower-cased email addresses for non-restore actions. -/
def check_db_settings (db_version stored_email action user_email : String) :
    Option Nat :=
  if pyStrLt db_version db_schema_min_version ||
     pyStrLt db_schema_version db_version then
    some 4
  else if action ∉ restoreActions ∧ pyLower user_email ≠ pyLower stored_email then
    some 5
  else
    none

/-- Outcome of opening an existing ledger in `main` (`main.py` lines 147-152):
either the process exits with a code, or it proceeds, recording whether the
in-place migration `convertDB` ran. -/
inductive OpenResult where
  | exited (code : Nat)
  | proceed (migrated : Bool)
deriving DecidableEq

/-- Embedding of the ledger-open sequence in `main`: `get_db_settings` has
produced `db_version` and `stored_email`; `check_db_settings` runs first and
may exit; then, for non-restore actions only, `convertDB` runs when the stored
version is below `__db_schema_version__` under Python string comparison. -/
def ledgerOpen (db_version stored_email action user_email : String) : OpenResult :=
  match check_db_settings db_version stored_email action user_email with
  | some code => .exited code
  | none =>
    if action ∉ restoreActions ∧ pyStrLt db_version db_schema_version then
      .proceed true
    else
      .proceed false

/-- Pre-jitter wait computed by `_backoff` in `google_api.py`:
`wait_on_fail = (2 ** n) if (2 ** n) < 60 else 60`. -/
def wait_on_fail (n : Nat) : Nat := if 2 ^ n < 60 then 2 ^ n else 60

/-- Jitter added by `_backoff`: `float(random.randint(1, 1000)) / 1000`, as a
function of the value `r` returned by `random.randint(1, 1000)`
(so `1 ≤ r ≤ 1000`). -/
def randomness (r : Nat) : ℚ := (r : ℚ) / 1000

/-- Total sleep performed by `_backoff` for attempt `n` and random draw `r`. -/
def backoff_sleep (n r : Nat) : ℚ := (wait_on_fail n : ℚ) + randomness r

/-- Result of one attempt of the `try` body in `callGAPI` (`google_api.py`):
the call succeeds, raises an `HttpError` with an extracted reason and message,
raises a credential `RefreshError`, raises
`CertificateValidationUnsupported`, or raises a network-level error
(`ServerNotFoundError` / `socket.error`). -/
inductive TryResult where
  | success (v : Nat)
  | httpError (reason message : String)
  | refreshError (message : String)
  | certError
  | netError (message : String)
deriving DecidableEq

/-- How one invocation of `callGAPI` resolves: a returned value, a re-raised
`HttpError` (reason in `throw_reasons`), a soft `return` of `None`, or a
`sys.exit` with a code. -/
inductive CallResult where
  | ok (v : Nat)
  | raised (reason : String)
  | softNone
  | exited (code : Nat)
deriving DecidableEq

/-- The built-in retryable reasons of `callGAPI`. -/
def defaultRetryReasons : List String :=
  ["rateLimitExceeded", "userRateLimitExceeded", "backendError", "internalError"]

/-- One iteration of the retry loop in `callGAPI` at attempt `n` (with
`retries` the attempt ceiling): `some` resolves the call, `none` means the
iteration called `_backoff` and continued to attempt `n + 1`.  Mirrors the
exception handlers in order: `throw_reasons` re-raise; retryable reasons
back off unless `n == retries`; otherwise soft mode returns `None` and hard
mode exits 5; `RefreshError` exits 403; certificate failure exits 8; network
errors back off unless `n == retries`, then exit 4. -/
def callGAPIstep (soft_errors : Bool) (throw_reasons retry_reasons : List String)
    (retries n : Nat) (t : TryResult) : Option CallResult :=
  match t with
  | .success v => some (.ok v)
  | .httpError reason _message =>
    if reason ∈ throw_reasons then some (.raised reason)
    else if n ≠ retries ∧ reason ∈ defaultRetryReasons ++ retry_reasons then none
    else if soft_errors then some .softNone
    else some (.exited 5)
  | .refreshError _message => some (.exited 403)
  | .certError => some (.exited 8)
  | .netError _message =>
    if n ≠ retries then none else some (.exited 4)

/-- The `for n in range(1, retries + 1)` loop of `callGAPI`, with `attempts`
iterations remaining and `f k` the outcome of the `try` body on attempt `k`.
Returns the resolution, the final attempt number, and the list of pre-jitter
backoff waits performed, or `none` if the loop ran out of iterations while
asking to retry. -/
def callGAPIloop (f : Nat → TryResult) (soft_errors : Bool)
    (throw_reasons retry_reasons : List String) (retries : Nat) :
    Nat → Nat → Option (CallResult × Nat × List Nat)
  | 0, _ => none
  | attempts + 1, n =>
    match callGAPIstep soft_errors throw_reasons retry_reasons retries n (f n) with
    | some r => some (r, n, [])
    | none =>
      match callGAPIloop f soft_errors throw_reasons retry_reasons retries attempts (n + 1) with
      | some (r, m, ws) => some (r, m, wait_on_fail n :: ws)
      | none => none

/-- Embedding of `callGAPI` (`google_api.py`): `retries = 10`, attempts
numbered 1 through 10. -/
def callGAPI (f : Nat → TryResult) (soft_errors : Bool)
    (throw_reasons retry_reasons : List String) :
    Option (CallResult × Nat × List Nat) :=
  callGAPIloop f soft_errors throw_reasons retry_reasons 10 10 1

/-- A Gmail API message response as consumed by the outcome callbacks in
`actions.py`: `id`, optional `labelIds` (read with `.get('labelIds', [])`),
`internalDate` (milliseconds, as a string in the transport, used through
`int(...)`), and the `raw` content. -/
structure Response where
  id : String
  labelIds : Option (List String)
  internalDate : Int
  raw : String
deriving DecidableEq

/-- State of the SQLite ledger (`msg-db.sqlite`).  `tables` records which
tables have been created.  Row lists are kept in insertion order:
`messages(message_num PRIMARY KEY, message_filename, message_internaldate)`,
`labels(message_num, label)` with the unique index `labelidx`,
`uids(message_num, uid PRIMARY KEY)` and `restored_messages(message_num)`.
Message numbers and uids are carried as strings (the values the callbacks
bind come from string message ids); the stored internal date is the exact
rational value of Python `int(internalDate) / 1000`. -/
structure DBState where
  tables : List String
  settings : List (String × String)
  messages : List (String × String × ℚ)
  labels : List (String × String)
  uids : List (String × String)
  restored_messages : List String
deriving DecidableEq

/-- SQLite errors the callbacks can see: a uniqueness violation
(`sqlite3.IntegrityError`) or a statement against a missing table
(`sqlite3.OperationalError`). -/
inductive SqlErr where
  | integrityError
  | operationalError (message : String)
deriving DecidableEq

/-- Embedding of `initializeDB` (`database.py`): creates `settings`,
`messages`, `labels` and `uids` (plus the unique index `labelidx`, reflected
here in the uniqueness guard of label inserts) and stores `email_address` and
`db_version`.  No other table is created. -/
def initializeDB (email : String) : DBState :=
  { tables := ["settings", "messages", "labels", "uids"]
    settings := [("email_address", email), ("db_version", db_schema_version)]
    messages := []
    labels := []
    uids := []
    restored_messages := [] }

/-- Sequence of `INSERT INTO labels` statements with a per-row
`except sqlite3.IntegrityError: pass`, as in `refresh_message`: a duplicate
(message_num, label) pair under the unique index `labelidx` is skipped and
the remaining rows are still inserted. -/
def insertLabelsEach (rows : List (String × String)) (num : String) :
    List String → List (String × String)
  | [] => rows
  | lab :: rest =>
    if rows.any (fun r => r.1 = num ∧ r.2 = lab) then
      insertLabelsEach rows num rest
    else
      insertLabelsEach (rows ++ [(num, lab)]) num rest

/-- Sequence of `INSERT INTO labels` statements inside one `try` block, as in
`backup_message` and `backup_chat`: the first duplicate raises
`IntegrityError`, aborting the rest of the block while keeping the rows
already inserted (no rollback is issued). -/
def insertLabelsAbort (rows : List (String × String)) (num : String) :
    List String → List (String × String)
  | [] => rows
  | lab :: rest =>
    if rows.any (fun r => r.1 = num ∧ r.2 = lab) then rows
    else insertLabelsAbort (rows ++ [(num, lab)]) num rest

/-- Embedding of the `refresh_message` batch callback (`actions.py`): on an
exception it prints and returns without touching the ledger; otherwise it
deletes the message's label rows and re-inserts the label set from the
response, tolerating per-row uniqueness violations.  A `None` response with
no exception would crash on `response['id']` and is mapped to an error. -/
def refresh_message (request_id : String) (response : Option Response)
    (exception : Option String) (db : DBState) : Except SqlErr DBState :=
  match exception with
  | some _ => .ok db
  | none =>
    match response with
    | none => .error (.operationalError "TypeError: response is None")
    | some resp =>
      let message_num := resp.id
      let labels := resp.labelIds.getD []
      .ok { db with
        labels := insertLabelsEach
          (db.labels.filter (fun r => r.1 ≠ message_num)) message_num labels }

/-- Whether an insert into `restored_messages` can find its table: `true`
exactly when the table exists in the ledger. -/
def hasRestoredTable (db : DBState) : Bool := db.tables.contains "restored_messages"

/-- The `INSERT INTO restored_messages (message_num) VALUES (?)` statement.
Modelled from the spec: the `restored_messages` table itself is created by
the restore driver, which is not under `src/` (only this insert and the
schema listing survive); the spec makes `message_num` a unique key
(`RestoredMarker { message_id (unique key) }`), so a duplicate insert raises
`IntegrityError`.  A missing table raises `OperationalError`, which is what
an insert against a ledger that never created the table does. -/
def insertRestoredRow (db : DBState) (num : String) : Except SqlErr DBState :=
  if hasRestoredTable db then
    if num ∈ db.restored_messages then .error .integrityError
    else .ok { db with restored_messages := db.restored_messages ++ [num] }
  else .error (.operationalError "no such table: restored_messages")

/-- Embedding of the `restored_message` batch callback (`actions.py`): on an
exception it prints and returns; otherwise it inserts the request id into
`restored_messages`, catching `IntegrityError` only. -/
def restored_message (request_id : String) (response : Option Response)
    (exception : Option String) (db : DBState) : Except SqlErr DBState :=
  match exception with
  | some _ => .ok db
  | none =>
    match insertRestoredRow db request_id with
    | .ok db2 => .ok db2
    | .error .integrityError => .ok db
    | .error e => .error e

/-- Embedding of the `backup_message` batch callback (`actions.py`): on an
exception or a `None` response it returns without a ledger write; otherwise,
inside one `try` block catching `IntegrityError`, it inserts the message row
(primary key `message_num` — a duplicate aborts the whole block before any
label statement runs), deletes the message's label rows, and inserts the
response's label set.  The local file write and the `backup_count` increment
are operator-facing side effects outside the ledger and are not part of the
state. -/
def backup_message (request_id : String) (response : Option Response)
    (exception : Option String) (db : DBState) : Except SqlErr DBState :=
  match exception with
  | some _ => .ok db
  | none =>
    match response with
    | none => .ok db
    | some resp =>
      let message_num := resp.id
      let labels := resp.labelIds.getD []
      let message_date : ℚ := (resp.internalDate : ℚ) / 1000
      let filename := if request_id = message_num then message_num ++ ".eml" else request_id
      if db.messages.any (fun r => r.1 = message_num) then .ok db
      else .ok { db with
        messages := db.messages ++ [(message_num, filename, message_date)]
        labels := insertLabelsAbort
          (db.labels.filter (fun r => r.1 ≠ message_num)) message_num labels }

/-- Sequential invocation of a per-item outcome callback over a resolved
batch, as `BatchHttpRequest.execute` does: each item is
`(request_id, response_or_none, exception_or_none)`; an error raised by a
callback aborts the remaining items. -/
def executeBatch
    (cb : String → Option Response → Option String → DBState → Except SqlErr DBState) :
    List (String × Option Response × Option String) → DBState → Except SqlErr DBState
  | [], db => .ok db
  | (rid, resp, exc) :: rest, db =>
    match cb rid resp exc db with
    | .ok db2 => executeBatch cb rest db2
    | .error e => .error e

/-- Embedding of `message_is_backed_up` (`database.py`): look up the message
row (`LIMIT 1`; `message_num` is the primary key), and if its backing file is
missing from the backup folder, delete the message row together with its
label rows and uid rows, commit, and report `false`; if the file exists,
report `true` with no change; report `false` with no change when there is no
row.  `fileExists` stands for `os.path.isfile` and the path join is POSIX
`folder/filename`. -/
def message_is_backed_up (message_num : String) (db : DBState)
    (fileExists : String → Bool) (backup_folder : String) : Bool × DBState :=
  match db.messages.find? (fun r => r.1 = message_num) with
  | none => (false, db)
  | some row =>
    if fileExists (backup_folder ++ "/" ++ row.2.1) then (true, db)
    else
      (false,
        { db with
          messages := db.messages.filter (fun r => r.1 ≠ message_num)
          labels := db.labels.filter (fun r => r.1 ≠ message_num)
          uids := db.uids.filter (fun r => r.1 ≠ message_num) })

/-- The `reserved_labels` default vocabulary from `main.py`. -/
def reserved_labels : List String :=
  ["inbox", "spam", "trash", "unread", "starred", "important",
   "sent", "draft", "chat", "chats", "migrated", "todo", "todos", "buzz",
   "bin", "allmail", "drafts", "archive", "archived", "muted"]

/-- The `system_labels` default vocabulary from `main.py`. -/
def system_labels : List String :=
  ["INBOX", "SPAM", "TRASH", "UNREAD", "STARRED", "IMPORTANT",
   "SENT", "DRAFT", "CATEGORY_PERSONAL", "CATEGORY_SOCIAL",
   "CATEGORY_PROMOTIONS", "CATEGORY_UPDATES", "CATEGORY_FORUMS"]

/-- State of the label directory in `actions.py`: the global `allLabelIds`
name-to-id cache (kept as an association list in insertion order) together
with a count of remote API calls made so far (label list loads and label
creations both count). -/
structure LabelState where
  allLabelIds : List (String × String)
  remoteCalls : Nat
deriving DecidableEq

/-- Python `label in allLabelIds` / `allLabelIds[label]`: exact-key lookup. -/
def lookupLabel (cache : List (String × String)) (name : String) : Option String :=
  (cache.find? (fun p => p.1 = name)).map (fun p => p.2)

/-- Body of the `for label in labels` loop of `labelsToLabelIds`
(`actions.py`), resolving one name against the current state.  `newId` stands
for the id the remote `createLabel` call assigns to a new name; a creation
performs one remote call and caches the new id in `allLabelIds`. -/
def resolveLabel (newId : String → String) (st : LabelState) (label : String) :
    String × LabelState :=
  match lookupLabel st.allLabelIds label with
  | some lid => (lid, st)
  | none =>
    if label ∈ system_labels then (label, st)
    else if pyUpper label ∈ system_labels then (pyUpper label, st)
    else if pyLower label ∈ reserved_labels then
      (if pyLower label = "chat" then "CHAT"
       else if pyLower label = "chats" then "CHAT"
       else if pyLower label = "draft" ∨ pyLower label = "drafts" then "DRAFT"
       else pyUpper label, st)
    else
      let lid := newId label
      (lid, { allLabelIds := st.allLabelIds ++ [(label, lid)]
              remoteCalls := st.remoteCalls + 1 })

/-- The per-name loop of `labelsToLabelIds`, threading the mutable global
cache. -/
def labelsLoop (newId : String → String) :
    List String → LabelState → List String × LabelState
  | [], st => ([], st)
  | label :: rest, st =>
    let (lid, st1) := resolveLabel newId st label
    let (lids, st2) := labelsLoop newId rest st1
    (lid :: lids, st2)

/-- Embedding of `labelsToLabelIds` (`actions.py`): when the `allLabelIds`
cache is empty it is first populated by one remote `labels().list` call
(`remoteLabels` is that listing as name-to-id pairs), then every name is
resolved through the cache, the system/reserved vocabularies, or remote
creation. -/
def labelsToLabelIds (remoteLabels : List (String × String))
    (newId : String → String) (labels : List String) (st : LabelState) :
    List String × LabelState :=
  let st1 :=
    if st.allLabelIds = [] then
      { allLabelIds := remoteLabels, remoteCalls := st.remoteCalls + 1 }
    else st
  labelsLoop newId labels st1

/-- One page returned by the remote listing, as `callGAPIpages`
(`google_api.py`) reads it: the items field may be absent (read through a
caught `KeyError`) and the continuation cursor `nextPageToken` may be absent
(its absence terminates the loop). -/
structure Page (α : Type) where
  itemsField : Option (List α)
  nextPageToken : Option String
deriving DecidableEq

/-- The `while True` loop of `callGAPIpages` over the successive responses
of `callGAPI` (`none` models a falsy response, which the source replaces by
`{items: []}` — a page with no cursor).  `acc` is `all_pages`.  The result is
`none` only if the provided response sequence is exhausted while a cursor
still asks for another fetch. -/
def callGAPIpagesLoop {α : Type} : List (Option (Page α)) → List α → Option (List α)
  | [], _ => none
  | p :: rest, acc =>
    let page := match p with
      | some pg => pg
      | none => { itemsField := some [], nextPageToken := none }
    let acc2 := acc ++ page.itemsField.getD []
    match page.nextPageToken with
    | some _ => callGAPIpagesLoop rest acc2
    | none => some acc2

/-- Embedding of `callGAPIpages`: run the page loop with an empty
accumulator. -/
def callGAPIpages {α : Type} (responses : List (Option (Page α))) : Option (List α) :=
  callGAPIpagesLoop responses []

/-- A small concrete ledger carrying all five tables of the persistence
schema (as a restore driver would have after creating `restored_messages`),
used to instantiate theorems on concrete inputs. -/
def sampleLedger : DBState :=
  { tables := ["settings", "messages", "labels", "uids", "restored_messages"]
    settings := [("email_address", "user@example.com"), ("db_version", "6")]
    messages := []
    labels := []
    uids := []
    restored_messages := [] }

/-- A concrete successful message response. -/
def sampleResponse : Response :=
  { id := "1", labelIds := some ["INBOX"], internalDate := 0, raw := "" }

/-- `sampleLedger` after one successful `backup_message` outcome for
`sampleResponse`. -/
def sampleLedgerBackedUp : DBState :=
  { sampleLedger with
    messages := [("1", "1.eml", ((0 : Int) : ℚ) / 1000)]
    labels := [("1", "INBOX")] }

/-- `sampleLedger` after one successful `refresh_message` outcome for
`sampleResponse`. -/
def sampleLedgerRefreshed : DBState :=
  { sampleLedger with labels := [("1", "INBOX")] }

/-- `sampleLedger` after one successful `restored_message` outcome for
request id `"1"`. -/
def sampleLedgerRestored : DBState :=
  { sampleLedger with restored_messages := ["1"] }

/-- C10: the schema-version guard compares the stored version against the
supported bounds as strings under code-point lexicographic order, not as
integers: a ledger passes the version test exactly when its version string
is neither lexicographically below `"6"` nor above `"6"`; the numerically
newer string `"10"` is lexicographically below the minimum (classified as
too old, not too new) and still makes `check_db_settings` exit with code 4. -/
theorem claim_C10 :
    (∀ v stored_email action user_email,
        check_db_settings v stored_email action user_email ≠ some 4 ↔
          (pyStrLt v db_schema_min_version = false ∧
           pyStrLt db_schema_version v = false)) ∧
    pyStrLt "10" db_schema_min_version = true ∧
    pyStrLt db_schema_version "10" = false ∧
    check_db_settings "10" "user@example.com" "backup" "user@example.com" = some 4 := by
  refine ⟨fun v se a ue => ?_, by decide, by decide, by decide⟩
  unfold check_db_settings
  rcases hA : pyStrLt v db_schema_min_version <;>
    rcases hB : pyStrLt db_schema_version v <;>
      simp [hA, hB] <;> split <;> simp

/-- C3 counterexample: a ledger whose stored version `"5"` is below the
minimum-for-restore does not let a backup proceed through migration — the
guard exits with code 4 for the backup action as well. -/
theorem claim_C3_counterexample :
    ledgerOpen "5" "user@example.com" "backup" "user@example.com" =
      OpenResult.exited 4 ∧
    ∀ migrated, ledgerOpen "5" "user@example.com" "backup" "user@example.com" ≠
      OpenResult.proceed migrated := by
  decide

/-- C3 (amended): the schema-version guard run at ledger open time exits with
the fatal code 4 for every ledger whose stored version lies outside the
supported range — above the current version or below the minimum, for every
action, restore and backup alike; and because the minimum equals the current
version, no run that passes the guard ever applies the in-place migration
steps (the migration branch of `main` is unreachable). -/
theorem claim_C3 :
    (∀ v stored_email action user_email,
        (pyStrLt v db_schema_min_version = true ∨
         pyStrLt db_schema_version v = true) →
        ledgerOpen v stored_email action user_email = OpenResult.exited 4) ∧
    (∀ v stored_email action user_email migrated,
        ledgerOpen v stored_email action user_email = OpenResult.proceed migrated →
        migrated = false) := by
  constructor
  · intro v se a ue h
    unfold ledgerOpen check_db_settings
    rcases h with h | h <;> simp [h]
  · intro v se a ue migrated h
    unfold ledgerOpen at h
    rcases hc : check_db_settings v se a ue with _ | code
    · rw [hc] at h
      have hA2 : pyStrLt v db_schema_version = false := by
        rcases hA : pyStrLt v db_schema_version with _ | _
        · rfl
        · exfalso
          have h4 : check_db_settings v se a ue = some 4 := by
            unfold check_db_settings
            have hmin : pyStrLt v db_schema_min_version = true := hA
            rw [hmin]
            simp
          rw [h4] at hc
          cases hc
      rw [hA2] at h
      simp at h
      exact h
    · rw [hc] at h
      exact absurd h (by simp)

/-- C3 witness: the amended guard theorem applied at the concrete version
`"10"` (lexicographically below `"6"`, exits 4 on a backup) and at the
passing version `"6"` (proceeds without migration). -/
theorem claim_C3_witness :
    ledgerOpen "10" "user@example.com" "backup" "user@example.com" =
      OpenResult.exited 4 ∧ (false : Bool) = false :=
  ⟨claim_C3.1 "10" "user@example.com" "backup" "user@example.com"
      (Or.inl (by decide)),
   claim_C3.2 "6" "user@example.com" "backup" "user@example.com" false (by decide)⟩

/-- C9 counterexample: the jitter added by `_backoff` is
`randint(1, 1000) / 1000`; the draw `r = 1000` is inside the admissible
range and yields jitter exactly `1`, which is not strictly below `1`, so the
jitter is not confined to the half-open interval `[0, 1)`. -/
theorem claim_C9_counterexample :
    (1 : Nat) ≤ 1000 ∧ (1000 : Nat) ≤ 1000 ∧
    ¬ (0 ≤ randomness 1000 ∧ randomness 1000 < 1) := by
  refine ⟨by norm_num, by norm_num, ?_⟩
  intro h
  have h1 : randomness 1000 = 1 := by norm_num [randomness]
  rw [h1] at h
  exact lt_irrefl 1 h.2

/-- C9 (amended): the jitter added to every backoff delay is drawn from the
half-open interval `(0, 1]` seconds — for every admissible draw of
`random.randint(1, 1000)` the added value is strictly greater than `0` and
at most `1`. -/
theorem claim_C9 (r : Nat) (h1 : 1 ≤ r) (h2 : r ≤ 1000) :
    0 < randomness r ∧ randomness r ≤ 1 := by
  unfold randomness
  constructor
  · apply div_pos
    · exact_mod_cast Nat.lt_of_lt_of_le Nat.zero_lt_one h1
    · norm_num
  · rw [div_le_one (by norm_num)]
    exact_mod_cast h2

/-- C9 witness: the amended jitter bound at the concrete draw `r = 500`. -/
theorem claim_C9_witness : 0 < randomness 500 ∧ randomness 500 ≤ 1 :=
  claim_C9 500 (by norm_num) (by norm_num)

/-- C2: `initializeDB` creates exactly the tables `settings`, `messages`,
`labels` and `uids` — it does not create `restored_messages` — so the
`RestoredMarker` insert performed by the restore outcome callback
`restored_message` against a ledger fresh from `initializeDB` hits a missing
table and raises an uncaught `OperationalError` instead of targeting an
existing table. -/
theorem claim_C2 :
    (initializeDB "user@example.com").tables =
      ["settings", "messages", "labels", "uids"] ∧
    "restored_messages" ∉ (initializeDB "user@example.com").tables ∧
    restored_message "123"
        (some { id := "123", labelIds := some [], internalDate := 0, raw := "" })
        none (initializeDB "user@example.com") =
      .error (.operationalError "no such table: restored_messages") :=
  ⟨rfl, by decide, rfl⟩

/-- The source's conditional `(2 ** n) if (2 ** n) < 60 else 60` computes
`min (2 ^ n) 60`. -/
theorem wait_on_fail_min (n : Nat) : wait_on_fail n = min (2 ^ n) 60 := by
  unfold wait_on_fail
  split
  · exact (min_eq_left (le_of_lt (by assumption))).symm
  · exact (min_eq_right (by omega)).symm

/-- At the final attempt (`n = retries`) the loop body of `callGAPI` always
resolves the call: every exception handler either raises, soft-returns or
exits, and none retries. -/
theorem callGAPIstep_at_retries (soft_errors : Bool)
    (throw_reasons retry_reasons : List String) (retries : Nat) (t : TryResult) :
    callGAPIstep soft_errors throw_reasons retry_reasons retries retries t ≠ none := by
  cases t <;> simp only [callGAPIstep] <;> (repeat' split) <;> simp_all

/-- Resolution invariant of the retry loop: starting at attempt `n ≤ 10` with
`11 - n` iterations left, the loop resolves at some attempt `m ≤ 10` and the
backoff waits performed are exactly `wait_on_fail` of the attempts
`n, …, m - 1`. -/
theorem callGAPIloop_resolves (f : Nat → TryResult) (soft_errors : Bool)
    (throw_reasons retry_reasons : List String) :
    ∀ attempts n, 1 ≤ n → n ≤ 10 → n + attempts = 11 →
      ∃ r m, callGAPIloop f soft_errors throw_reasons retry_reasons 10 attempts n =
          some (r, m, (List.range (m - n)).map (fun i => wait_on_fail (n + i))) ∧
        n ≤ m ∧ m ≤ 10 := by
  intro attempts
  induction attempts with
  | zero => intro n _ h2 h3; omega
  | succ k ih =>
    intro n h1 h2 h3
    rcases hstep : callGAPIstep soft_errors throw_reasons retry_reasons 10 n (f n)
      with _ | r
    · have hn : n ≠ 10 := by
        intro hEq
        rw [hEq] at hstep
        exact callGAPIstep_at_retries soft_errors throw_reasons retry_reasons 10
          (f 10) hstep
      obtain ⟨r, m, hloop, hnm, hm10⟩ := ih (n + 1) (by omega) (by omega) (by omega)
      refine ⟨r, m, ?_, by omega, hm10⟩
      rw [callGAPIloop, hstep, hloop]
      have hrange : m - n = (m - (n + 1)) + 1 := by omega
      rw [hrange, List.range_succ_eq_map, List.map_cons, List.map_map]
      have hfun : ((fun i => wait_on_fail (n + i)) ∘ Nat.succ) =
          fun i => wait_on_fail (n + 1 + i) := by
        funext i
        simp [Function.comp]
        congr 1
        omega
      rw [hfun]
      simp
    · refine ⟨r, n, ?_, le_refl n, h2⟩
      rw [callGAPIloop, hstep]
      simp

/-- C1: the pre-jitter backoff delay computed by `_backoff` for attempt `n`
in `[1, 10]` equals `min (2 ^ n, 60)` seconds, and `callGAPI` never makes an
11th attempt: for every sequence of attempt outcomes, the call resolves (to
a value, a re-raised error, a soft `None` or a process exit) at some attempt
`m ≤ 10`, having backed off exactly after attempts `1, …, m - 1` with delay
`min (2 ^ n, 60)` each — in particular no backoff, hence no retry, follows
the 10th failed attempt. -/
theorem claim_C1 :
    (∀ n, 1 ≤ n → n ≤ 10 → wait_on_fail n = min (2 ^ n) 60) ∧
    (∀ f soft_errors throw_reasons retry_reasons, ∃ r m,
        callGAPI f soft_errors throw_reasons retry_reasons =
          some (r, m, (List.range (m - 1)).map (fun i => min (2 ^ (1 + i)) 60)) ∧
        1 ≤ m ∧ m ≤ 10) := by
  constructor
  · intro n _ _
    exact wait_on_fail_min n
  · intro f soft_errors throw_reasons retry_reasons
    obtain ⟨r, m, hloop, h1, h2⟩ :=
      callGAPIloop_resolves f soft_errors throw_reasons retry_reasons 10 1
        (by norm_num) (by norm_num) (by norm_num)
    refine ⟨r, m, ?_, h1, h2⟩
    rw [callGAPI, hloop]
    have hfun : (fun i => wait_on_fail (1 + i)) =
        fun i => min (2 ^ (1 + i)) 60 := by
      funext i
      exact wait_on_fail_min (1 + i)
    rw [hfun]

/-- C1 witness: the delay formula at the concrete attempt `n = 7`
(`min (2 ^ 7) 60 = 60`), and the resolution bound for a concrete run that
succeeds immediately. -/
theorem claim_C1_witness :
    wait_on_fail 7 = min (2 ^ 7) 60 ∧
    (∃ r m, callGAPI (fun _ => TryResult.success 0) false [] [] =
        some (r, m, (List.range (m - 1)).map (fun i => min (2 ^ (1 + i)) 60)) ∧
      1 ≤ m ∧ m ≤ 10) :=
  ⟨claim_C1.1 7 (by norm_num) (by norm_num),
   claim_C1.2 (fun _ => TryResult.success 0) false [] []⟩

/-- Accumulator form of the paginator property: while every response carries
a continuation cursor the loop keeps fetching, it terminates on the first
response without one, and the accumulator collects the item lists in order. -/
theorem callGAPIpagesLoop_concat {α : Type} (ps : List (Page α)) (last : Page α)
    (extra : List (Option (Page α)))
    (hps : ∀ p ∈ ps, (p.nextPageToken).isSome = true)
    (hlast : last.nextPageToken = none) :
    ∀ acc, callGAPIpagesLoop (ps.map some ++ some last :: extra) acc =
      some (acc ++ ((ps ++ [last]).map (fun p => p.itemsField.getD [])).flatten) := by
  induction ps with
  | nil =>
    intro acc
    simp [callGAPIpagesLoop, hlast]
  | cons p rest ih =>
    intro acc
    obtain ⟨t, ht⟩ := Option.isSome_iff_exists.mp (hps p (List.mem_cons_self p rest))
    have hrest : ∀ q ∈ rest, (q.nextPageToken).isSome = true :=
      fun q hq => hps q (List.mem_cons_of_mem p hq)
    rw [List.map_cons, List.cons_append]
    show callGAPIpagesLoop (some p :: (rest.map some ++ some last :: extra)) acc = _
    rw [callGAPIpagesLoop, ht]
    rw [ih hrest (acc ++ p.itemsField.getD [])]
    simp [List.append_assoc]

/-- C4: for every response sequence in which an initial segment of pages all
carry the continuation cursor and the next response lacks it, `callGAPIpages`
fetches exactly through the first cursor-less response — pages with an empty
or absent items field but a cursor still cause another fetch, whatever
responses would follow is never consumed — and returns the concatenation of
all consumed pages' item lists in order. -/
theorem claim_C4 {α : Type} (ps : List (Page α)) (last : Page α)
    (extra : List (Option (Page α)))
    (hps : ∀ p ∈ ps, (p.nextPageToken).isSome = true)
    (hlast : last.nextPageToken = none) :
    callGAPIpages (ps.map some ++ some last :: extra) =
      some (((ps ++ [last]).map (fun p => p.itemsField.getD [])).flatten) := by
  rw [callGAPIpages, callGAPIpagesLoop_concat ps last extra hps hlast []]
  simp

/-- C4 witness: a run over four pages — items, an empty item list with a
cursor, an absent items field with a cursor, then a cursor-less final page —
followed by an extra response that is never fetched. -/
theorem claim_C4_witness :
    callGAPIpages
        (([{ itemsField := some [1, 2], nextPageToken := some "t" },
           { itemsField := some [], nextPageToken := some "u" },
           { itemsField := none, nextPageToken := some "v" }] : List (Page Nat)).map some ++
          some { itemsField := some [3], nextPageToken := none } ::
            [some { itemsField := some [99], nextPageToken := some "w" }]) =
      some [1, 2, 3] := by
  have h := claim_C4 (α := Nat)
    [{ itemsField := some [1, 2], nextPageToken := some "t" },
     { itemsField := some [], nextPageToken := some "u" },
     { itemsField := none, nextPageToken := some "v" }]
    { itemsField := some [3], nextPageToken := none }
    [some { itemsField := some [99], nextPageToken := some "w" }]
    (by decide) rfl
  simpa using h

/-- C5: label resolution applies its rules in priority order.  An exact
cache hit wins over every other rule (the cached id is returned with no
state change and no remote call); against the cache pre-populated with
`Work ↦ Label_1`, the reserved name `chat` resolves to `CHAT` and the name
`spam` resolves to the upper-cased system label `SPAM`, neither touching the
cache nor calling the remote; the unknown name `Projects` triggers one
remote creation whose id is cached, so that resolving `Projects` twice in a
row performs exactly one remote call and returns the created id both
times. -/
theorem claim_C5 :
    (∀ remoteLabels newId (st : LabelState) label lid,
        st.allLabelIds ≠ [] →
        lookupLabel st.allLabelIds label = some lid →
        labelsToLabelIds remoteLabels newId [label] st = ([lid], st)) ∧
    (∀ remoteLabels newId k,
        labelsToLabelIds remoteLabels newId ["chat", "spam"]
            { allLabelIds := [("Work", "Label_1")], remoteCalls := k } =
          (["CHAT", "SPAM"],
           { allLabelIds := [("Work", "Label_1")], remoteCalls := k })) ∧
    (∀ remoteLabels newId k,
        labelsToLabelIds remoteLabels newId ["Projects", "Projects"]
            { allLabelIds := [("Work", "Label_1")], remoteCalls := k } =
          ([newId "Projects", newId "Projects"],
           { allLabelIds := [("Work", "Label_1"), ("Projects", newId "Projects")],
             remoteCalls := k + 1 })) := by
  refine ⟨?_, fun remoteLabels newId k => rfl, fun remoteLabels newId k => rfl⟩
  intro remoteLabels newId st label lid hne hlookup
  unfold labelsToLabelIds
  rw [if_neg hne]
  unfold labelsLoop resolveLabel
  rw [hlookup]
  rfl

/-- C5 witness: resolving the cached name `Work` against the pre-populated
cache returns `Label_1` with no remote call and no state change. -/
theorem claim_C5_witness :
    labelsToLabelIds [] (fun _ => "Label_9") ["Work"]
        { allLabelIds := [("Work", "Label_1")], remoteCalls := 0 } =
      (["Label_1"], { allLabelIds := [("Work", "Label_1")], remoteCalls := 0 }) :=
  claim_C5.1 [] (fun _ => "Label_9")
    { allLabelIds := [("Work", "Label_1")], remoteCalls := 0 }
    "Work" "Label_1" (by decide) (by decide)

/-- Re-inserting a message's label rows never disturbs the rows of other
messages: filtering the inserted message out again recovers the rows the
insertion started from. -/
theorem insertLabelsEach_filter_ne (num : String) :
    ∀ (labs : List String) (rows : List (String × String)),
      (insertLabelsEach rows num labs).filter (fun r => r.1 ≠ num) =
        rows.filter (fun r => r.1 ≠ num) := by
  intro labs
  induction labs with
  | nil => intro rows; rfl
  | cons lab rest ih =>
    intro rows
    unfold insertLabelsEach
    split
    · exact ih rows
    · rw [ih (rows ++ [(num, lab)]), List.filter_append]
      simp

/-- C6: each of the three success callbacks is idempotent on the ledger —
applying the same successful outcome a second time raises no error and
returns exactly the state the first application produced (no duplicate
rows, all rows identical).  For `restored_message` the ledger must carry the
`restored_messages` table, whose schema is modelled from the spec. -/
theorem claim_C6 :
    (∀ request_id resp db d1,
        backup_message request_id (some resp) none db = .ok d1 →
        backup_message request_id (some resp) none d1 = .ok d1) ∧
    (∀ request_id resp db d1,
        refresh_message request_id (some resp) none db = .ok d1 →
        refresh_message request_id (some resp) none d1 = .ok d1) ∧
    (∀ request_id resp db d1,
        hasRestoredTable db = true →
        restored_message request_id (some resp) none db = .ok d1 →
        restored_message request_id (some resp) none d1 = .ok d1) := by
  refine ⟨?_, ?_, ?_⟩
  · intro request_id resp db d1 h
    simp only [backup_message] at h ⊢
    split at h
    · cases h
      rw [if_pos (by assumption)]
    · cases h
      rw [if_pos ?_]
      simp
  · intro request_id resp db d1 h
    simp only [refresh_message] at h ⊢
    cases h
    congr 1
    have hfix :
        (insertLabelsEach (db.labels.filter (fun r => r.1 ≠ resp.id)) resp.id
              (resp.labelIds.getD [])).filter (fun r => r.1 ≠ resp.id) =
          db.labels.filter (fun r => r.1 ≠ resp.id) := by
      rw [insertLabelsEach_filter_ne, List.filter_filter]
      simp
    rw [hfix]
  · intro request_id resp db d1 htab h
    simp only [restored_message, insertRestoredRow, htab, if_true] at h
    by_cases hmem : request_id ∈ db.restored_messages
    · rw [if_pos hmem] at h
      cases h
      simp only [restored_message, insertRestoredRow, htab, if_true]
      rw [if_pos hmem]
    · rw [if_neg hmem] at h
      cases h
      have htab2 : hasRestoredTable
          { db with restored_messages := db.restored_messages ++ [request_id] } = true := htab
      simp only [restored_message, insertRestoredRow, htab2, if_true]
      rw [if_pos (by simp)]

/-- C6 witness: the three idempotence statements applied to the concrete
ledger states produced by one application of each callback. -/
theorem claim_C6_witness :
    backup_message "1" (some sampleResponse) none sampleLedgerBackedUp =
      .ok sampleLedgerBackedUp ∧
    refresh_message "1" (some sampleResponse) none sampleLedgerRefreshed =
      .ok sampleLedgerRefreshed ∧
    restored_message "1" (some sampleResponse) none sampleLedgerRestored =
      .ok sampleLedgerRestored :=
  ⟨claim_C6.1 "1" sampleResponse sampleLedger sampleLedgerBackedUp (by rfl),
   claim_C6.2.1 "1" sampleResponse sampleLedger sampleLedgerRefreshed (by rfl),
   claim_C6.2.2 "1" sampleResponse sampleLedger sampleLedgerRestored (by rfl) (by rfl)⟩

/-- A callback that treats every exception outcome as a no-op lets a batch
drop its exception items without affecting the writes of the remaining
items. -/
theorem executeBatch_filter_exceptions
    (cb : String → Option Response → Option String → DBState → Except SqlErr DBState)
    (hcb : ∀ request_id resp exc db, cb request_id resp (some exc) db = .ok db) :
    ∀ outcomes db,
      executeBatch cb outcomes db =
        executeBatch cb (outcomes.filter (fun o => o.2.2 = none)) db := by
  intro outcomes
  induction outcomes with
  | nil => intro db; rfl
  | cons o rest ih =>
    intro db
    obtain ⟨rid, resp, exc⟩ := o
    cases exc with
    | none =>
      cases hcbr : cb rid resp none db with
      | ok db2 => simp [executeBatch, hcbr, ih db2, List.filter_cons]
      | error e => simp [executeBatch, hcbr, List.filter_cons]
    | some e => simp [executeBatch, hcb, List.filter_cons, ih db]

/-- C7: every per-item outcome callback invoked with a non-`None` exception
only reports it — it performs no ledger write and raises nothing — so a
batch applies exactly the ledger writes of its exception-free items; in
particular a concrete batch of 5 `backup_message` items where item 3
carries an exception still writes the message rows of items 1, 2, 4
and 5. -/
theorem claim_C7 :
    (∀ request_id resp exc db,
        backup_message request_id resp (some exc) db = .ok db ∧
        refresh_message request_id resp (some exc) db = .ok db ∧
        restored_message request_id resp (some exc) db = .ok db) ∧
    (∀ outcomes db,
        executeBatch backup_message outcomes db =
          executeBatch backup_message (outcomes.filter (fun o => o.2.2 = none)) db) ∧
    (∀ outcomes db,
        executeBatch refresh_message outcomes db =
          executeBatch refresh_message (outcomes.filter (fun o => o.2.2 = none)) db) ∧
    (∀ outcomes db,
        executeBatch restored_message outcomes db =
          executeBatch restored_message (outcomes.filter (fun o => o.2.2 = none)) db) ∧
    executeBatch backup_message
        [("1", some { id := "1", labelIds := some [], internalDate := 0, raw := "" }, none),
         ("2", some { id := "2", labelIds := some [], internalDate := 0, raw := "" }, none),
         ("3", none, some "HttpError 500"),
         ("4", some { id := "4", labelIds := some [], internalDate := 0, raw := "" }, none),
         ("5", some { id := "5", labelIds := some [], internalDate := 0, raw := "" }, none)]
        sampleLedger =
      .ok { sampleLedger with
            messages := [("1", "1.eml", ((0 : Int) : ℚ) / 1000),
                         ("2", "2.eml", ((0 : Int) : ℚ) / 1000),
                         ("4", "4.eml", ((0 : Int) : ℚ) / 1000),
                         ("5", "5.eml", ((0 : Int) : ℚ) / 1000)] } :=
  ⟨fun request_id resp exc db => ⟨rfl, rfl, rfl⟩,
   executeBatch_filter_exceptions backup_message (fun _ _ _ _ => rfl),
   executeBatch_filter_exceptions refresh_message (fun _ _ _ _ => rfl),
   executeBatch_filter_exceptions restored_message (fun _ _ _ _ => rfl),
   rfl⟩

/-- A self-repair deletion leaves no message row behind for the deleted
message number. -/
theorem find_after_delete (rows : List (String × String × ℚ)) (num : String) :
    (rows.filter (fun r => r.1 ≠ num)).find? (fun r => r.1 = num) = none := by
  rw [List.find?_eq_none]
  intro x hx
  have hmem := List.of_mem_filter hx
  simp at hmem ⊢
  exact hmem

/-- A lookup for a message with no row reports not backed up and changes
nothing. -/
theorem message_is_backed_up_none (message_num : String) (db : DBState)
    (fileExists : String → Bool) (backup_folder : String)
    (h : db.messages.find? (fun r => r.1 = message_num) = none) :
    message_is_backed_up message_num db fileExists backup_folder = (false, db) := by
  unfold message_is_backed_up
  rw [h]

/-- C8: when the backed-up lookup finds a message row whose backing file is
missing, it deletes the message row together with the message's label rows
and uid rows (and nothing else), reports the message as not backed up, and a
repeated lookup still reports it as not backed up (the next diff re-selects
it); when the backing file exists, the lookup reports the message as backed
up and leaves the ledger unchanged. -/
theorem claim_C8 (message_num : String) (db : DBState)
    (fileExists : String → Bool) (backup_folder : String)
    (row : String × String × ℚ)
    (hrow : db.messages.find? (fun r => r.1 = message_num) = some row) :
    (fileExists (backup_folder ++ "/" ++ row.2.1) = false →
      message_is_backed_up message_num db fileExists backup_folder =
        (false,
         { db with
           messages := db.messages.filter (fun r => r.1 ≠ message_num)
           labels := db.labels.filter (fun r => r.1 ≠ message_num)
           uids := db.uids.filter (fun r => r.1 ≠ message_num) }) ∧
      (message_is_backed_up message_num
          (message_is_backed_up message_num db fileExists backup_folder).2
          fileExists backup_folder).1 = false) ∧
    (fileExists (backup_folder ++ "/" ++ row.2.1) = true →
      message_is_backed_up message_num db fileExists backup_folder = (true, db)) := by
  constructor
  · intro hmiss
    have hdel : message_is_backed_up message_num db fileExists backup_folder =
        (false,
         { db with
           messages := db.messages.filter (fun r => r.1 ≠ message_num)
           labels := db.labels.filter (fun r => r.1 ≠ message_num)
           uids := db.uids.filter (fun r => r.1 ≠ message_num) }) := by
      simp [message_is_backed_up, hrow, hmiss]
    refine ⟨hdel, ?_⟩
    rw [hdel]
    rw [message_is_backed_up_none message_num
        { db with
          messages := db.messages.filter (fun r => r.1 ≠ message_num)
          labels := db.labels.filter (fun r => r.1 ≠ message_num)
          uids := db.uids.filter (fun r => r.1 ≠ message_num) }
        fileExists backup_folder (find_after_delete db.messages message_num)]
  · intro hhit
    simp [message_is_backed_up, hrow, hhit]

/-- C8 witness: the lookup theorem applied to a concrete one-message ledger,
once with the backing file missing and once with it present. -/
theorem claim_C8_witness :
    (message_is_backed_up "1" sampleLedgerBackedUp (fun _ => false) "GYB-Backup" =
        (false,
         { sampleLedgerBackedUp with
           messages := sampleLedgerBackedUp.messages.filter (fun r => r.1 ≠ "1")
           labels := sampleLedgerBackedUp.labels.filter (fun r => r.1 ≠ "1")
           uids := sampleLedgerBackedUp.uids.filter (fun r => r.1 ≠ "1") }) ∧
      (message_is_backed_up "1"
          (message_is_backed_up "1" sampleLedgerBackedUp (fun _ => false) "GYB-Backup").2
          (fun _ => false) "GYB-Backup").1 = false) ∧
    message_is_backed_up "1" sampleLedgerBackedUp (fun _ => true) "GYB-Backup" =
      (true, sampleLedgerBackedUp) :=
  ⟨(claim_C8 "1" sampleLedgerBackedUp (fun _ => false) "GYB-Backup"
      ("1", "1.eml", ((0 : Int) : ℚ) / 1000) (by rfl)).1 rfl,
   (claim_C8 "1" sampleLedgerBackedUp (fun _ => true) "GYB-Backup"
      ("1", "1.eml", ((0 : Int) : ℚ) / 1000) (by rfl)).2 rfl⟩

end GYB
